import Mathlib

/-!
Shallow embedding of the contact-form controller of the
Tour-Business-in-China repository (src/unnamed/part_000, the Contact page):
the form data type `ContactFormData` (here `FormState`), the error map
`Partial<ContactFormData>` (here `ErrorState`, one optional message slot per
field), and the three operations `handleChange`, `validateForm` and
`handleSubmit`.  JavaScript string semantics that the code relies on
(`String.prototype.trim`, regular-expression whitespace classes, string
truthiness, unanchored `RegExp.prototype.test`) are embedded explicitly.
-/

namespace TourContact

/-- The ECMAScript white-space and line-terminator characters: the set used
by `String.prototype.trim` and by the regexp classes `\s` / `\S`. -/
def jsWhitespaceChars : List Char :=
  [' ', '\t', '\n', '\r', '\x0b', '\x0c',
   '\u00A0', '\u1680',
   '\u2000', '\u2001', '\u2002', '\u2003', '\u2004',
   '\u2005', '\u2006', '\u2007', '\u2008', '\u2009', '\u200A',
   '\u2028', '\u2029', '\u202F', '\u205F', '\u3000', '\uFEFF']

/-- Whether `c` is an ECMAScript whitespace character (matched by `\s`). -/
def isJsWs (c : Char) : Bool := jsWhitespaceChars.contains c

/-- Whether `c` is matched by the regexp class `\S`. -/
def nonWs (c : Char) : Bool := !isJsWs c

/-- The JavaScript condition `!s.trim()`: the string trims to the empty string, i.e.
every character is whitespace (true in particular for the empty string). -/
def isBlank (s : String) : Bool := s.data.all isJsWs

/-- The test `/\S+@\S+\.\S+/.test(s)`: the ECMAScript `test` is an unanchored search,
succeeding iff SOME contiguous substring of `s` has the form
`\S+ '@' \S+ '.' \S+`.  Such a substring exists iff there are positions
`p < q` with `s[p] = '@'`, `s[q] = '.'`, at least one character strictly
between them and all such characters non-whitespace, a non-whitespace
character immediately before `p`, and a non-whitespace character
immediately after `q` (the inner `\S+` groups can always be shrunk to
these minimal pieces, since `'@'` and `'.'` are themselves non-whitespace). -/
def emailRegexTest (s : List Char) : Bool :=
  (List.range s.length).any fun p =>
    (List.range s.length).any fun q =>
      decide (1 ≤ p) && decide (p + 1 < q) && decide (q + 1 < s.length) &&
      (s.getD p ' ' == '@') && (s.getD q ' ' == '.') &&
      nonWs (s.getD (p - 1) ' ') && nonWs (s.getD (q + 1) ' ') &&
      ((List.range' (p + 1) (q - (p + 1))).all fun i => nonWs (s.getD i ' '))

/-- The ANCHORED shape `^\S+@\S+\.\S+$`: the WHOLE string decomposes as
`A '@' B '.' C` with `A`, `B`, `C` nonempty and all-non-whitespace.  This is
what the spec's words "of the form non-whitespace+'@'+non-whitespace+'.'+
non-whitespace, taken as a whole" describe; it is NOT what the code tests. -/
def anchoredEmailShape (s : List Char) : Bool :=
  (List.range s.length).any fun p =>
    (List.range s.length).any fun q =>
      decide (1 ≤ p) && decide (p + 1 < q) && decide (q + 1 < s.length) &&
      (s.getD p ' ' == '@') && (s.getD q ' ' == '.') &&
      ((List.range p).all fun i => nonWs (s.getD i ' ')) &&
      ((List.range' (p + 1) (q - (p + 1))).all fun i => nonWs (s.getD i ' ')) &&
      ((List.range' (q + 1) (s.length - (q + 1))).all fun i =>
        nonWs (s.getD i ' '))

/-- The four field identifiers of `ContactFormData`. -/
inductive Field where
  | name
  | email
  | subject
  | message
deriving DecidableEq, Repr

/-- The `ContactFormData` record (src/unnamed/part_000 lines 8-13). -/
structure FormState where
  name : String
  email : String
  subject : String
  message : String
deriving DecidableEq, Repr

/-- The `Partial<ContactFormData>` map used for `errors` (line 27): a record with one
optional message per field; `none` models an absent key. -/
structure ErrorState where
  name : Option String
  email : Option String
  subject : Option String
  message : Option String
deriving DecidableEq, Repr

/-- Dynamic-key read `formData[f]`. -/
def FormState.get (fd : FormState) : Field → String
  | .name => fd.name
  | .email => fd.email
  | .subject => fd.subject
  | .message => fd.message

/-- Dynamic-key write `{...prev, [f]: v}`. -/
def FormState.set (fd : FormState) : Field → String → FormState
  | .name, v => { fd with name := v }
  | .email, v => { fd with email := v }
  | .subject, v => { fd with subject := v }
  | .message, v => { fd with message := v }

/-- Dynamic-key read `errors[f]`. -/
def ErrorState.get (e : ErrorState) : Field → Option String
  | .name => e.name
  | .email => e.email
  | .subject => e.subject
  | .message => e.message

/-- Dynamic-key write on the error map (`delete` is a write of `none`). -/
def ErrorState.set (e : ErrorState) : Field → Option String → ErrorState
  | .name, v => { e with name := v }
  | .email, v => { e with email := v }
  | .subject, v => { e with subject := v }
  | .message, v => { e with message := v }

/-- The component's pair of state hooks: `formData` and `errors`. -/
structure ComponentState where
  formData : FormState
  errors : ErrorState
deriving DecidableEq, Repr

/-- All-empty form, the initial `useState` value (lines 19-24). -/
def emptyForm : FormState := ⟨"", "", "", ""⟩

/-- Empty error map `{}`, the initial `useState` value (line 27). -/
def emptyErrors : ErrorState := ⟨none, none, none, none⟩

/-- Component state at mount. -/
def initState : ComponentState := ⟨emptyForm, emptyErrors⟩

/-- JavaScript truthiness of `errors[name]` (line 58): a present entry is
truthy iff the string is nonempty; an absent key is `undefined`, falsy. -/
def errTruthy : Option String → Bool
  | some m => m != ""
  | none => false

/-- The `handleChange` handler (lines 50-65): always writes `formData[f] = v`; deletes
`errors[f]` when the current entry is truthy. -/
def handleChange (st : ComponentState) (f : Field) (v : String) :
    ComponentState :=
  { formData := st.formData.set f v
    errors :=
      if errTruthy (st.errors.get f) then st.errors.set f none
      else st.errors }

/-- The `newErrors` map built by `validateForm` (lines 68-88), a function of
`formData` alone. -/
def validateForm (fd : FormState) : ErrorState :=
  { name := if isBlank fd.name then some "Name is required" else none
    email :=
      if isBlank fd.email then some "Email is required"
      else if !emailRegexTest fd.email.data then some "Email is not valid"
      else none
    subject := if isBlank fd.subject then some "Subject is required" else none
    message :=
      if isBlank fd.message then some "Message is required" else none }

/-- The check `Object.keys(newErrors).length === 0` (line 90): no key is present. -/
def errorsEmpty (e : ErrorState) : Bool :=
  e.name.isNone && e.email.isNone && e.subject.isNone && e.message.isNone

/-- The boolean `validateForm()` returns for a given form state. -/
def validateIsValid (fd : FormState) : Bool := errorsEmpty (validateForm fd)

/-- The full effect of one `validateForm()` call on the component state
(lines 68-91): it stores `newErrors` via `setErrors` and returns the
validity boolean. -/
def validateRun (st : ComponentState) : ComponentState × Bool :=
  let newErrors := validateForm st.formData
  (⟨st.formData, newErrors⟩, errorsEmpty newErrors)

/-- The fixed toast message (line 102). -/
def successMessage : String :=
  "Thank you for your message! We will get back to you soon."

/-- The `handleSubmit` handler (lines 94-112): runs `validateForm` (which stores the new
error map); when valid, fires the toast and resets the form.  The second
component collects the notification-sink calls made during the event. -/
def handleSubmit (st : ComponentState) : ComponentState × List String :=
  let newErrors := validateForm st.formData
  if errorsEmpty newErrors then
    (⟨emptyForm, newErrors⟩, [successMessage])
  else
    (⟨st.formData, newErrors⟩, [])

/-- Per-field validation rule, read off the spec: a field fails iff it is
blank, except `email`, which also fails when the regexp test fails. -/
def ruleFails (fd : FormState) : Field → Bool
  | .name => isBlank fd.name
  | .email => isBlank fd.email || !emailRegexTest fd.email.data
  | .subject => isBlank fd.subject
  | .message => isBlank fd.message

/-- The fixed message a failing field receives. -/
def ruleMessage (fd : FormState) : Field → String
  | .name => "Name is required"
  | .email =>
      if isBlank fd.email then "Email is required" else "Email is not valid"
  | .subject => "Subject is required"
  | .message => "Message is required"

/-- States reachable from mount by any sequence of field edits and submit
attempts. -/
inductive Reachable : ComponentState → Prop where
  | init : Reachable initState
  | change (f : Field) (v : String) {st : ComponentState} :
      Reachable st → Reachable (handleChange st f v)
  | submit {st : ComponentState} :
      Reachable st → Reachable (handleSubmit st).1

/-! Helper lemmas shared by the claim theorems. -/

lemma ErrorState.get_set_self (e : ErrorState) (f : Field) (x : Option String) :
    (e.set f x).get f = x := by
  cases e; cases f <;> rfl

lemma ErrorState.get_set_ne (e : ErrorState) (f g : Field) (x : Option String)
    (h : g ≠ f) : (e.set f x).get g = e.get g := by
  cases e; cases f <;> cases g <;> simp_all [ErrorState.set, ErrorState.get]

lemma ErrorState.set_none_self (e : ErrorState) (f : Field)
    (h : e.get f = none) : e.set f none = e := by
  cases e; cases f <;> simp_all [ErrorState.set, ErrorState.get]

lemma validateForm_get (fd : FormState) (f : Field) :
    (validateForm fd).get f =
      if ruleFails fd f then some (ruleMessage fd f) else none := by
  cases f <;>
    simp only [validateForm, ErrorState.get, ruleFails, ruleMessage]
  cases hb : isBlank fd.email <;>
    cases ht : emailRegexTest fd.email.data <;> simp [hb, ht]

lemma ruleMessage_ne_empty (fd : FormState) (f : Field) :
    ruleMessage fd f ≠ "" := by
  cases f <;> simp only [ruleMessage]
  case email => split <;> decide
  all_goals decide

lemma validateForm_get_ne_some_empty (fd : FormState) (f : Field) :
    (validateForm fd).get f ≠ some "" := by
  rw [validateForm_get]
  cases hr : ruleFails fd f <;> simp
  exact ruleMessage_ne_empty fd f

lemma validateForm_set_ne (fd : FormState) (f : Field) (v : String)
    (g : Field) (h : g ≠ f) :
    (validateForm (fd.set f v)).get g = (validateForm fd).get g := by
  cases f <;> cases g <;>
    simp_all [FormState.set, validateForm, ErrorState.get]

lemma validateForm_get_eq_none_iff (fd : FormState) (f : Field) :
    (validateForm fd).get f = none ↔ ruleFails fd f = false := by
  rw [validateForm_get]
  cases hr : ruleFails fd f <;> simp

lemma errorsEmpty_iff_get (e : ErrorState) :
    errorsEmpty e = true ↔ ∀ f, e.get f = none := by
  cases e with
  | mk n em s m =>
    simp only [errorsEmpty, Bool.and_eq_true, Option.isNone_iff_eq_none]
    constructor
    · rintro ⟨⟨⟨h1, h2⟩, h3⟩, h4⟩ f
      cases f <;> simp_all [ErrorState.get]
    · intro h
      exact ⟨⟨⟨h .name, h .email⟩, h .subject⟩, h .message⟩

lemma errorsEmpty_iff_empty (e : ErrorState) :
    errorsEmpty e = true ↔ e = emptyErrors := by
  cases e with
  | mk n em s m =>
    simp [errorsEmpty, emptyErrors, Option.isNone_iff_eq_none, and_assoc]

lemma validateIsValid_iff (fd : FormState) :
    validateIsValid fd = true ↔ ∀ f, ruleFails fd f = false := by
  rw [validateIsValid, errorsEmpty_iff_get]
  exact forall_congr' fun f => validateForm_get_eq_none_iff fd f

lemma handleSubmit_eq (st : ComponentState) :
    handleSubmit st =
      if errorsEmpty (validateForm st.formData) then
        ((⟨emptyForm, validateForm st.formData⟩ : ComponentState),
          [successMessage])
      else ((⟨st.formData, validateForm st.formData⟩ : ComponentState), []) :=
  rfl

/-! The claim theorems. -/

/-- C1: for every form state, `validateForm` reports validity iff no field
fails its rule; the returned error map holds exactly the failing fields,
each with its fixed message (passing fields are absent); and a submit
attempt replaces the previous error map wholesale with this result,
whatever the previous error map was. -/
theorem validate_full_characterization (fd : FormState) :
    (validateIsValid fd = true ↔ ∀ f, ruleFails fd f = false) ∧
    (∀ f, (validateForm fd).get f =
      if ruleFails fd f then some (ruleMessage fd f) else none) ∧
    (∀ e : ErrorState, ((handleSubmit ⟨fd, e⟩).1).errors = validateForm fd) :=
  ⟨validateIsValid_iff fd, validateForm_get fd, fun e => by
    rw [handleSubmit_eq]
    split <;> rfl⟩

/-- C2: when all four fields are non-blank after trimming and the email
value passes the minimal shape test, `validateForm` reports valid and the
error map is empty. -/
theorem all_fields_pass (fd : FormState)
    (h1 : isBlank fd.name = false) (h2 : isBlank fd.email = false)
    (h3 : emailRegexTest fd.email.data = true)
    (h4 : isBlank fd.subject = false) (h5 : isBlank fd.message = false) :
    validateIsValid fd = true ∧ validateForm fd = emptyErrors := by
  have hv : validateForm fd = emptyErrors := by
    simp [validateForm, emptyErrors, h1, h2, h3, h4, h5]
  exact ⟨by rw [validateIsValid, hv]; rfl, hv⟩

/-- Witness for C2 at the concrete valid input
name "A", email "a@b.c", subject "S", message "M". -/
theorem all_fields_pass_witness :
    validateIsValid ⟨"A", "a@b.c", "S", "M"⟩ = true ∧
    validateForm ⟨"A", "a@b.c", "S", "M"⟩ = emptyErrors :=
  all_fields_pass ⟨"A", "a@b.c", "S", "M"⟩ (by decide) (by decide) (by decide)
    (by decide) (by decide)

/-- C3: the email entry of the result of `validateForm` is
"Email is required" exactly when the email value is blank after trimming,
"Email is not valid" exactly when it is non-blank and the untrimmed value
fails the regexp test, and absent exactly when it is non-blank and the
untrimmed value passes the test; in particular the two failure messages
are mutually exclusive on any one call. -/
theorem email_rule_characterization (fd : FormState) :
    ((validateForm fd).email = some "Email is required" ↔
      isBlank fd.email = true) ∧
    ((validateForm fd).email = some "Email is not valid" ↔
      (isBlank fd.email = false ∧ emailRegexTest fd.email.data = false)) ∧
    ((validateForm fd).email = none ↔
      (isBlank fd.email = false ∧ emailRegexTest fd.email.data = true)) := by
  cases hb : isBlank fd.email <;>
    cases ht : emailRegexTest fd.email.data <;>
      simp [validateForm, hb, ht]

/-- C4: a submit attempt on a state whose form data validates successfully
fires the notification sink exactly once with the fixed success string,
resets all four fields to the empty string, and leaves the error map
empty. -/
theorem submit_valid_resets (st : ComponentState)
    (h : validateIsValid st.formData = true) :
    handleSubmit st = (⟨emptyForm, emptyErrors⟩, [successMessage]) := by
  have he : validateForm st.formData = emptyErrors :=
    (errorsEmpty_iff_empty _).mp h
  rw [handleSubmit_eq, he]
  rfl

/-- Witness for C4 at a concrete valid state. -/
theorem submit_valid_resets_witness :
    validateIsValid (⟨"A", "a@b.c", "S", "M"⟩ : FormState) = true ∧
    handleSubmit ⟨⟨"A", "a@b.c", "S", "M"⟩, emptyErrors⟩ =
      (⟨emptyForm, emptyErrors⟩, [successMessage]) :=
  ⟨by decide, submit_valid_resets ⟨⟨"A", "a@b.c", "S", "M"⟩, emptyErrors⟩
    (by decide)⟩

/-- C5: a submit attempt on a state whose form data fails validation leaves
the form data untouched, stores exactly the error map `validateForm`
computed, and never calls the notification sink. -/
theorem submit_invalid_preserves (st : ComponentState)
    (h : validateIsValid st.formData = false) :
    handleSubmit st = (⟨st.formData, validateForm st.formData⟩, []) := by
  rw [validateIsValid] at h
  rw [handleSubmit_eq, h]
  rfl

/-- Witness for C5 at the all-empty initial state, which fails validation. -/
theorem submit_invalid_preserves_witness :
    validateIsValid initState.formData = false ∧
    handleSubmit initState =
      (⟨initState.formData, validateForm initState.formData⟩, []) :=
  ⟨by decide, submit_invalid_preserves initState (by decide)⟩

/-- C6: for any field, any value (including the empty string), and any
state whose entry for that field is not the degenerate empty-string
message, `handleChange` writes the value into that field of the form data,
clears that field's error entry, and changes nothing else — the other
fields and the other error entries are untouched and no validation is
re-run; the operation is total. -/
theorem change_updates_field (st : ComponentState) (f : Field) (v : String)
    (h : st.errors.get f ≠ some "") :
    handleChange st f v = ⟨st.formData.set f v, st.errors.set f none⟩ := by
  unfold handleChange
  cases hg : st.errors.get f with
  | none =>
    rw [ErrorState.set_none_self st.errors f hg]
    simp [errTruthy, hg]
  | some m =>
    have hm : m ≠ "" := fun hc => h (by rw [hg, hc])
    have ht : errTruthy (some m) = true := by
      simp [errTruthy, hm]
    rw [if_pos ht]

/-- Witness for C6: editing the name field after a failed validation clears
its error and stores the typed value. -/
theorem change_updates_field_witness :
    handleChange ⟨emptyForm, ⟨some "Name is required", none, none, none⟩⟩
        Field.name "Bob" =
      ⟨emptyForm.set Field.name "Bob",
        ErrorState.set ⟨some "Name is required", none, none, none⟩
          Field.name none⟩ :=
  change_updates_field
    ⟨emptyForm, ⟨some "Name is required", none, none, none⟩⟩
    Field.name "Bob" (by decide)

/-- C7: in every state reachable from mount by field edits and submit
attempts, every error entry is sound — a field holding message `m` in the
error map currently fails its validation rule with exactly that message
(and the map's keys range over the four fields by construction). -/
theorem errors_sound (st : ComponentState) (h : Reachable st) :
    ∀ f m, st.errors.get f = some m →
      (validateForm st.formData).get f = some m := by
  induction h with
  | init =>
    intro f m hm
    cases f <;> simp [initState, emptyErrors, ErrorState.get] at hm
  | change f' v hst ih =>
    rename_i st0
    intro f m hm
    simp only [handleChange] at hm ⊢
    by_cases hf : f = f'
    · rw [hf] at hm ⊢
      by_cases htr : errTruthy (st0.errors.get f') = true
      · rw [if_pos htr, ErrorState.get_set_self] at hm
        exact absurd hm (by simp)
      · rw [if_neg htr] at hm
        have hme : m = "" := by
          rw [hm] at htr
          by_contra hne
          exact htr (by simp [errTruthy, hne])
        have hold := ih f' m hm
        rw [hme] at hold
        exact absurd hold (validateForm_get_ne_some_empty _ f')
    · have hm2 : st0.errors.get f = some m := by
        by_cases htr : errTruthy (st0.errors.get f') = true
        · rw [if_pos htr, ErrorState.get_set_ne _ _ _ _ hf] at hm
          exact hm
        · rw [if_neg htr] at hm
          exact hm
      rw [validateForm_set_ne _ _ _ _ hf]
      exact ih f m hm2
  | submit hst ih =>
    rename_i st0
    intro f m hm
    rw [handleSubmit_eq] at hm ⊢
    by_cases hc : errorsEmpty (validateForm st0.formData) = true
    · rw [if_pos hc] at hm
      dsimp only at hm
      have hn := (errorsEmpty_iff_get _).mp hc f
      rw [hn] at hm
      exact absurd hm (by simp)
    · rw [if_neg hc] at hm ⊢
      dsimp only at hm ⊢
      exact hm

/-- Witness for C7: the state after a failed submit from mount is reachable
and holds a name error, and the theorem certifies the name field currently
fails with that message. -/
theorem errors_sound_witness :
    (validateForm (handleSubmit initState).1.formData).get Field.name =
      some "Name is required" :=
  errors_sound (handleSubmit initState).1 (Reachable.submit Reachable.init)
    Field.name "Name is required" (by decide)

/-- C8: one `validateForm()` call is a pure function of the form data: its
stored error map and returned boolean do not depend on the previous error
map, it leaves the form data untouched, and running it a second time on
the resulting state returns the identical results. -/
theorem validate_pure (fd : FormState) (e e2 : ErrorState) :
    validateRun ⟨fd, e⟩ = validateRun ⟨fd, e2⟩ ∧
    (validateRun ⟨fd, e⟩).1.formData = fd ∧
    validateRun (validateRun ⟨fd, e⟩).1 = validateRun ⟨fd, e⟩ :=
  ⟨rfl, rfl, rfl⟩

/-- C9: the email check is an unanchored substring search: the value
"a@b.c extra words" is not, taken as a whole, of the shape
non-whitespace+'@'+non-whitespace+'.'+non-whitespace, yet the regexp test
accepts it (a substring matches), so `validateForm` reports no email error
and the whole form passes. -/
theorem email_test_unanchored :
    emailRegexTest (String.data "a@b.c extra words") = true ∧
    anchoredEmailShape (String.data "a@b.c extra words") = false ∧
    (validateForm ⟨"A", "a@b.c extra words", "S", "M"⟩).email = none ∧
    validateIsValid ⟨"A", "a@b.c extra words", "S", "M"⟩ = true := by
  refine ⟨by decide, by decide, by decide, by decide⟩

/-- C10: the subject rule checks only non-blankness — any subject value
that is non-blank after trimming passes, with no membership test against
the select options offered by the page. -/
theorem subject_not_restricted (fd : FormState)
    (h : isBlank fd.subject = false) :
    (validateForm fd).subject = none := by
  simp [validateForm, h]

/-- Witness for C10 at a subject string outside the page's option set. -/
theorem subject_not_restricted_witness :
    isBlank "definitely not a listed option" = false ∧
    (validateForm ⟨"", "", "definitely not a listed option", ""⟩).subject =
      none :=
  ⟨by decide,
    subject_not_restricted ⟨"", "", "definitely not a listed option", ""⟩
      (by decide)⟩

end TourContact
